import Mathlib

/-
Verification development for the multi-specialist review engine
(`multiagentpanic`): the specialist subgraph (plan / spawn_context /
analyze / finalize), the orchestrator (load_memory, run_review_agents,
collect), the context-resolution cache, and the Redis-backed workflow
queue.  Python functions are shallowly embedded as executable Lean
definitions; external effects (LLM output, tool results, the clock,
Redis availability) are passed in as explicit parameters.
-/

/- ════════════════════════════════════════════════════════════
   Domain data model (multiagentpanic/domain/schemas.py)
   ════════════════════════════════════════════════════════════ -/

/-- Severity literal of a Finding: "high" | "medium" | "low". -/
inductive Severity
  | high
  | medium
  | low
deriving DecidableEq, Repr

/-- Finding (schemas.py).  `finding_type` is kept as a plain string; the
JSON payload fields irrelevant to any verdict are carried verbatim. -/
structure Finding where
  id : String
  iteration : Nat
  severity : Severity
  finding_type : String
  file : String
  line : Nat
  description : String
  suggestion : Option String := none
  code_snippet : Option String := none
deriving DecidableEq, Repr

/-- Verdict literal of a review agent: "PASS" | "WARN" | "FAIL" | "NEEDS_WORK". -/
inductive Verdict
  | PASS
  | WARN
  | FAIL
  | NEEDS_WORK
deriving DecidableEq, Repr

/-- Payload of a gathered context record: either the tool's context_found
dict (raw output plus LLM summary) or the error recorded for a failed
context agent. -/
inductive ContextPayload
  | found (raw : String) (summary : String)
  | error (msg : String)
deriving DecidableEq, Repr

/-- One gathered-context record as appended by `_spawn_context_agents`
(the `gathered_item` dict). -/
structure ContextRecord where
  iteration : Nat
  context_type : String
  result : ContextPayload
  cost_usd : ℚ
  tokens : Nat
  cache_key : String
  failed : Bool := false
deriving DecidableEq, Repr

/-- ReviewAgentVerdict (schemas.py): the final report emitted by a
specialist subgraph.  Confidence is modelled in ℚ. -/
structure ReviewAgentVerdict where
  verdict : Verdict
  confidence : ℚ
  summary : String
  specialty : String
  findings : List Finding
  context_gathered : List ContextRecord
  iterations_used : Nat
  needs_more_context : Bool
deriving DecidableEq, Repr

/-- One context-gathering request as produced by the plan step: the
`{"type": ..., "query": ..., "files": [...]}` dict read by
`_spawn_context_agents`. -/
structure ContextRequest where
  type : String
  query : String
  files : List String
deriving DecidableEq, Repr

/-- ReviewAgentState (schemas.py): scratch state of one specialist
subgraph run.  Only the fields the subgraph nodes read or write are
kept; `pr_diff`, `marching_orders` etc. flow only into prompts. -/
structure ReviewAgentState where
  specialty : String
  current_iteration : Nat
  context_gathered : List ContextRecord
  findings : List Finding
  reasoning_history : List String
  context_requests_this_iteration : List ContextRequest
  needs_more_context : Bool
deriving DecidableEq, Repr

/-- Review-agent template entry (prompts.py): the two numeric knobs of
REVIEW_AGENT_TEMPLATES; prompt text is out of scope. -/
structure ReviewTemplate where
  max_iterations : Nat
  context_agent_budget : Nat
deriving DecidableEq, Repr

/-- REVIEW_AGENT_TEMPLATES (prompts.py): alignment has max_iterations 3,
the other three specialties have 2. -/
def reviewAgentTemplates : List (String × ReviewTemplate) :=
  [("alignment", ⟨3, 2⟩),
   ("dependencies", ⟨2, 2⟩),
   ("testing", ⟨2, 1⟩),
   ("security", ⟨2, 2⟩)]

/- ════════════════════════════════════════════════════════════
   Specialist finalize (agent_factory.py, _review_agent_finalize)
   ════════════════════════════════════════════════════════════ -/

/-- Confidence computed by `_review_agent_finalize` (agent_factory.py
lines 362-371), with Python floats read in exact rational arithmetic:
max(0.1, min(0.95, 0.8 + min(0.1, len(ctx)*0.02)
- (len(high)*0.2 + len(medium)*0.1)
- max(0, (current_iteration - max_iterations)*0.1))). -/
def review_agent_confidence (template : ReviewTemplate) (state : ReviewAgentState) : ℚ :=
  let high_severity_findings := state.findings.filter fun f => f.severity = Severity.high
  let medium_severity_findings := state.findings.filter fun f => f.severity = Severity.medium
  let base_confidence : ℚ := 8/10
  let context_bonus : ℚ := min (1/10) ((state.context_gathered.length : ℚ) * (2/100))
  let severity_penalty : ℚ :=
    (high_severity_findings.length : ℚ) * (2/10) + (medium_severity_findings.length : ℚ) * (1/10)
  let iteration_penalty : ℚ :=
    max 0 ((((state.current_iteration : ℤ) - (template.max_iterations : ℤ) : ℤ) : ℚ) * (1/10))
  max (1/10) (min (95/100) (base_confidence + context_bonus - severity_penalty - iteration_penalty))

/-- Verdict derivation of `_review_agent_finalize` (agent_factory.py
lines 373-381): any high finding → FAIL; else any medium → WARN; else
any finding → NEEDS_WORK; else PASS. -/
def review_agent_verdict (state : ReviewAgentState) : Verdict :=
  let high_severity_findings := state.findings.filter fun f => f.severity = Severity.high
  let medium_severity_findings := state.findings.filter fun f => f.severity = Severity.medium
  if high_severity_findings ≠ [] then Verdict.FAIL
  else if medium_severity_findings ≠ [] then Verdict.WARN
  else if state.findings ≠ [] then Verdict.NEEDS_WORK
  else Verdict.PASS

/-- Summary string built by `_review_agent_finalize` (lines 383-394). -/
def review_agent_summary (template : ReviewTemplate) (state : ReviewAgentState) : String :=
  let high_severity_findings := state.findings.filter fun f => f.severity = Severity.high
  let medium_severity_findings := state.findings.filter fun f => f.severity = Severity.medium
  let findings_summary :=
    if high_severity_findings ≠ [] then
      toString state.findings.length ++ " findings (including "
        ++ toString high_severity_findings.length ++ " high-severity issues)"
    else if medium_severity_findings ≠ [] then
      toString state.findings.length ++ " findings (including "
        ++ toString medium_severity_findings.length ++ " medium-severity issues)"
    else
      toString state.findings.length ++ " findings"
  let summary := "Review completed with " ++ findings_summary ++ " in "
    ++ toString state.current_iteration ++ " iterations"
  if state.current_iteration ≥ template.max_iterations ∧ state.findings ≠ [] then
    summary ++ ". Review may benefit from additional context or manual review."
  else summary

/-- The `final_report` returned by `_review_agent_finalize`
(agent_factory.py lines 396-407) on its normal (non-exception) path. -/
def review_agent_finalize (template : ReviewTemplate) (state : ReviewAgentState) : ReviewAgentVerdict :=
  { verdict := review_agent_verdict state
    confidence := review_agent_confidence template state
    summary := review_agent_summary template state
    specialty := state.specialty
    findings := state.findings
    context_gathered := state.context_gathered
    iterations_used := state.current_iteration
    needs_more_context := false }

/-- Clamp of the spec: clamp(lo, hi, x) = max lo (min hi x). -/
def clamp (lo hi x : ℚ) : ℚ := max lo (min hi x)

/-- Confidence formula exactly as the spec words it (written from the
spec, to be compared with `review_agent_confidence`): clamp(0.1, 0.95,
0.8 + min(0.1, 0.02×ctx) − 0.2×high − 0.1×medium
− 0.1×max(0, iterations − max_iterations)). -/
def specClaimedConfidence (maxIters ctxCount highCount medCount iters : Nat) : ℚ :=
  clamp (1/10) (95/100)
    (8/10 + min (1/10) ((2/100) * (ctxCount : ℚ))
      - (2/10) * (highCount : ℚ) - (1/10) * (medCount : ℚ)
      - (1/10) * ((max 0 ((iters : ℤ) - (maxIters : ℤ)) : ℤ) : ℚ))

/- ════════════════════════════════════════════════════════════
   Orchestrator verdict aggregation (orchestrator.py)
   ════════════════════════════════════════════════════════════ -/

/-- Overall outcome of `_determine_overall_verdict` (a plain string in
the source: "NO_REVIEW" | "NEEDS_WORK" | "PASS"). -/
inductive OverallVerdict
  | NO_REVIEW
  | NEEDS_WORK
  | PASS
deriving DecidableEq, Repr

/-- Membership test `report.verdict in ["FAIL", "NEEDS_WORK", "WARN"]`
from `_determine_overall_verdict`. -/
def verdictNeedsWork (v : Verdict) : Bool :=
  v = Verdict.FAIL ∨ v = Verdict.NEEDS_WORK ∨ v = Verdict.WARN

/-- PRReviewOrchestrator._determine_overall_verdict (orchestrator.py
lines 516-527): empty list → NO_REVIEW; the for-loop's early return on
the first report with verdict in {FAIL, NEEDS_WORK, WARN} is the same
as an existence test; else PASS. -/
def determine_overall_verdict (reports : List ReviewAgentVerdict) : OverallVerdict :=
  if reports = [] then OverallVerdict.NO_REVIEW
  else if reports.any fun r => verdictNeedsWork r.verdict then OverallVerdict.NEEDS_WORK
  else OverallVerdict.PASS

/- ════════════════════════════════════════════════════════════
   Specialist subgraph state machine
   (agent_factory.py, create_review_agent_subgraph)
   ════════════════════════════════════════════════════════════ -/

/-- Nodes of the compiled review-agent subgraph: plan, spawn_context,
analyze, finalize, plus END. -/
inductive SubgraphNode
  | plan
  | spawn_context
  | analyze
  | finalize
  | done
deriving DecidableEq, Repr

/-- Parsed plan-step output (`_review_agent_plan`): the requested
context items and the reasoning string; the JSON-parse-failure and
exception paths are instances with empty requests. -/
structure PlanResult where
  context_requests : List ContextRequest
  reasoning : String
deriving DecidableEq, Repr

/-- Parsed analyze-step output (`_review_agent_analyze`): new findings,
reasoning, and the needs_more_context flag; the parse-failure and
exception paths are instances with empty findings and flag false. -/
structure AnalyzeResult where
  findings : List Finding
  reasoning : String
  needs_more_context : Bool
deriving DecidableEq, Repr

/-- State update of `_review_agent_plan` (agent_factory.py lines
153-188) merged under the LangGraph channel policies: context requests
replace, reasoning_history accumulates (operator.add), and
current_iteration is set to state.current_iteration + 1. -/
def review_agent_plan_update (res : PlanResult) (s : ReviewAgentState) : ReviewAgentState :=
  { s with
    context_requests_this_iteration := res.context_requests
    reasoning_history := s.reasoning_history ++ [res.reasoning]
    current_iteration := s.current_iteration + 1 }

/-- State update of `_spawn_context_agents` (lines 279-282) merged
under the channel policies: gathered records accumulate and the
request list is cleared for the next iteration. -/
def spawn_context_update (gathered : List ContextRecord) (s : ReviewAgentState) : ReviewAgentState :=
  { s with
    context_gathered := s.context_gathered ++ gathered
    context_requests_this_iteration := [] }

/-- State update of `_review_agent_analyze` (lines 343-347) merged
under the channel policies: findings and reasoning accumulate,
needs_more_context replaces.  Note: current_iteration is NOT updated
here. -/
def review_agent_analyze_update (res : AnalyzeResult) (s : ReviewAgentState) : ReviewAgentState :=
  { s with
    findings := s.findings ++ res.findings
    reasoning_history := s.reasoning_history ++ [res.reasoning]
    needs_more_context := res.needs_more_context }

/-- The conditional edge out of analyze (agent_factory.py line 142):
continue to spawn_context iff needs_more_context AND
current_iteration < max_iterations, else finalize. -/
def analyze_loop_condition (template : ReviewTemplate) (s : ReviewAgentState) : Bool :=
  s.needs_more_context && s.current_iteration < template.max_iterations

/-- Environment of one subgraph run: the backend outputs consumed at
each visit of a node (indexed by how many times that node has run so
far).  The plan node runs at most once in the compiled graph, so a
single PlanResult suffices. -/
structure SubgraphEnv where
  plan : PlanResult
  gather : Nat → List ContextRecord
  analyze : Nat → AnalyzeResult

/-- One point of a subgraph run: current node, current state, and ghost
counters recording how many times spawn_context and analyze have
executed. -/
structure SubgraphTrace where
  node : SubgraphNode
  state : ReviewAgentState
  spawn_count : Nat
  analyze_count : Nat
deriving DecidableEq, Repr

/-- One superstep of the compiled subgraph (create_review_agent_subgraph,
agent_factory.py lines 120-151): entry plan → spawn_context → analyze,
then the conditional edge back to spawn_context or on to finalize → END. -/
def subgraph_step (template : ReviewTemplate) (env : SubgraphEnv) (t : SubgraphTrace) : SubgraphTrace :=
  match t.node with
  | SubgraphNode.plan =>
      { t with node := SubgraphNode.spawn_context
               state := review_agent_plan_update env.plan t.state }
  | SubgraphNode.spawn_context =>
      { t with node := SubgraphNode.analyze
               state := spawn_context_update (env.gather t.spawn_count) t.state
               spawn_count := t.spawn_count + 1 }
  | SubgraphNode.analyze =>
      let s := review_agent_analyze_update (env.analyze t.analyze_count) t.state
      { t with node := if analyze_loop_condition template s
                       then SubgraphNode.spawn_context else SubgraphNode.finalize
               state := s
               analyze_count := t.analyze_count + 1 }
  | SubgraphNode.finalize => { t with node := SubgraphNode.done }
  | SubgraphNode.done => t

/-- Iterated subgraph execution from a trace point. -/
def subgraph_run (template : ReviewTemplate) (env : SubgraphEnv) (n : Nat) (t : SubgraphTrace) : SubgraphTrace :=
  (subgraph_step template env)^[n] t

/-- The initial specialist state the orchestrator constructs for a
subgraph run (orchestrator.py lines 327-343): current_iteration = 1,
all accumulators empty. -/
def initial_review_agent_state (specialty : String) : ReviewAgentState :=
  { specialty := specialty
    current_iteration := 1
    context_gathered := []
    findings := []
    reasoning_history := []
    context_requests_this_iteration := []
    needs_more_context := false }

/-- An environment in which every analyze step reports
needs_more_context = true and nothing else happens. -/
def alwaysNeedsMoreEnv : SubgraphEnv :=
  { plan := { context_requests := [], reasoning := "" }
    gather := fun _ => []
    analyze := fun _ => { findings := [], reasoning := "", needs_more_context := true } }

/- ════════════════════════════════════════════════════════════
   Orchestrator: run_review_agents (orchestrator.py)
   ════════════════════════════════════════════════════════════ -/

/-- Outcome of one specialist execution inside `_run_single_agent`'s
try block: the subgraph produced a validated report, produced a
payload that failed validation, produced no final_report at all, hit
the 300s wall-clock timeout, or raised some other exception. -/
inductive AgentOutcome
  | report (v : ReviewAgentVerdict)
  | parse_error (msg : String)
  | no_report
  | timeout
  | failure (msg : String)

/-- The report `_run_single_agent` (orchestrator.py lines 300-447)
ends up with for each outcome: validated report passed through;
validation failure → FAIL (confidence 0.1); missing report → PASS
placeholder (confidence 0.5); asyncio.TimeoutError → WARN (confidence
0.1, timeout noted); any other exception → NEEDS_WORK (confidence 0.1,
error text in the summary). -/
def run_single_agent_report (agent_name : String) (outcome : AgentOutcome) : ReviewAgentVerdict :=
  match outcome with
  | AgentOutcome.report v => v
  | AgentOutcome.parse_error msg =>
      { verdict := Verdict.FAIL, confidence := 1/10
        summary := "Error parsing report for " ++ agent_name ++ ": " ++ msg
        specialty := agent_name, findings := [], context_gathered := []
        iterations_used := 1, needs_more_context := false }
  | AgentOutcome.no_report =>
      { verdict := Verdict.PASS, confidence := 5/10
        summary := "Review completed for " ++ agent_name ++ " agent (no report)"
        specialty := agent_name, findings := [], context_gathered := []
        iterations_used := 1, needs_more_context := false }
  | AgentOutcome.timeout =>
      { verdict := Verdict.WARN, confidence := 1/10
        summary := "Agent " ++ agent_name ++ " timed out during execution"
        specialty := agent_name, findings := [], context_gathered := []
        iterations_used := 1, needs_more_context := false }
  | AgentOutcome.failure msg =>
      { verdict := Verdict.NEEDS_WORK, confidence := 1/10
        summary := "Agent " ++ agent_name ++ " failed: " ++ msg
        specialty := agent_name, findings := [], context_gathered := []
        iterations_used := 1, needs_more_context := false }

/-- The error field of `_run_single_agent`'s result dict: "Timeout" on
timeout, the exception text on failure, None otherwise. -/
def run_single_agent_error (outcome : AgentOutcome) : Option String :=
  match outcome with
  | AgentOutcome.timeout => some "Timeout"
  | AgentOutcome.failure msg => some msg
  | _ => none

/-- The review_agent_reports list built by `run_review_agents`
(orchestrator.py lines 449-488): one report per planned agent, in plan
order (asyncio.gather preserves task order); execution times and
metadata are wall-clock bookkeeping and out of scope. -/
def run_review_agents (plan : List String) (outcomes : String → AgentOutcome) : List ReviewAgentVerdict :=
  plan.map fun agent_name => run_single_agent_report agent_name (outcomes agent_name)

/- ════════════════════════════════════════════════════════════
   Orchestrator: load_memory (orchestrator.py)
   ════════════════════════════════════════════════════════════ -/

/-- A similar-PR row returned by the pr_reviews overlap query. -/
structure SimilarPR where
  pr_number : Nat
  pr_title : String
  pr_complexity : String
  summary : String
deriving DecidableEq, Repr

/-- Environment of load_memory: settings, database availability, query
failure, and the contents of the convention files that exist (none =
file absent; convention_read_fails models an OSError while reading). -/
structure MemoryEnv where
  learning_enabled : Bool
  asyncpg_available : Bool
  postgres_url : Option String
  query_fails : Bool
  similar_rows : List SimilarPR
  convention_file_content : String → Option String
  convention_read_fails : String → Bool

/-- The three PRReviewState fields load_memory reads and may populate
(repo_memory modelled as a string association list; only emptiness is
branched on). -/
structure OrchestratorMemoryState where
  repo_memory : List (String × String)
  similar_prs : List SimilarPR
  repo_conventions : List String

/-- PRReviewOrchestrator._find_similar_prs (orchestrator.py lines
157-223): empty when asyncpg or the postgres URL is missing; any
exception during the query is caught and degrades to []; otherwise the
fetched rows. -/
def find_similar_prs (env : MemoryEnv) : List SimilarPR :=
  if env.asyncpg_available = false ∨ env.postgres_url = none then []
  else if env.query_fails then []
  else env.similar_rows

/-- The convention files probed by _load_repo_conventions. -/
def potentialConventionFiles : List String :=
  [".github/CONTRIBUTING.md", "AGENTS.md", "CONTRIBUTING.md"]

/-- PRReviewOrchestrator._load_repo_conventions (orchestrator.py lines
225-255): three hardcoded conventions, plus one derived entry per
probe file that exists and reads without error (first 1024 bytes read,
first 100 kept); a read failure skips that file.  The function cannot
raise and never returns an empty list. -/
def load_repo_conventions (env : MemoryEnv) : List String :=
  let conventions :=
    ["Use type hints for all public functions",
     "Include docstrings for public APIs",
     "Follow existing code style patterns"]
  conventions ++ potentialConventionFiles.filterMap fun p =>
    match env.convention_file_content p with
    | none => none
    | some content =>
        if env.convention_read_fails p then none
        else some ("Derived from " ++ p ++ ": " ++ ((content.take 1024).take 100) ++ "...")

/-- The repo_memory placeholder load_memory installs when absent. -/
def default_repo_memory : List (String × String) :=
  [("common_issues", "[]"),
   ("review_patterns", "\x7b\x7d"),
   ("false_positive_patterns", "[]"),
   ("last_updated", "None")]

/-- Partial update returned by load_memory: none means the key is
absent from the returned dict, so the caller's value is kept. -/
structure MemoryUpdates where
  repo_memory : Option (List (String × String))
  similar_prs : Option (List SimilarPR)
  repo_conventions : Option (List String)
deriving DecidableEq, Repr

/-- PRReviewOrchestrator.load_memory (orchestrator.py lines 116-155):
each of the three fields is populated only if it is falsy (empty) in
the incoming state; similar PRs additionally require
settings.database.learning_enabled.  Totality of this function embeds
the fact that load_memory never raises. -/
def load_memory (env : MemoryEnv) (st : OrchestratorMemoryState) : MemoryUpdates :=
  { repo_memory := if st.repo_memory = [] then some default_repo_memory else none
    similar_prs :=
      if st.similar_prs = [] then
        some (if env.learning_enabled then find_similar_prs env else [])
      else none
    repo_conventions :=
      if st.repo_conventions = [] then some (load_repo_conventions env) else none }

/- ════════════════════════════════════════════════════════════
   Association lists: Redis hashes and in-memory dicts
   ════════════════════════════════════════════════════════════ -/

/-- Lookup in an association list (a Redis hash / Python dict with
insertion order). -/
def alGet {β : Type} : List (String × β) → String → Option β
  | [], _ => none
  | (k', v) :: rest, k => if k' = k then some v else alGet rest k

/-- Set a key in an association list, replacing an existing binding in
place or appending a new one. -/
def alSet {β : Type} : List (String × β) → String → β → List (String × β)
  | [], k, v => [(k, v)]
  | (k', v') :: rest, k, v =>
      if k' = k then (k, v) :: rest else (k', v') :: alSet rest k v

/- ════════════════════════════════════════════════════════════
   JSON for flat string-valued objects (json.dumps / json.loads on
   the parameter maps this system stores)
   ════════════════════════════════════════════════════════════ -/

/-- json.dumps of a flat string-valued object with default separators:
\x7b"k": "v", "k2": "v2"\x7d.  Escaping inside keys/values is out of
scope for the stored parameter maps. -/
def jsonObjDumps (params : List (String × String)) : String :=
  "\x7b"
    ++ String.intercalate ", "
        (params.map fun kv => "\"" ++ kv.1 ++ "\": \"" ++ kv.2 ++ "\"")
    ++ "\x7d"

/-- Read a quoted string body up to the closing quote. -/
def jsonStringBody : List Char → List Char → Option (String × List Char)
  | [], _ => none
  | c :: rest, acc =>
      if c = '"' then some (String.mk acc.reverse, rest)
      else jsonStringBody rest (c :: acc)

/-- Read a quoted string including the opening quote. -/
def jsonString : List Char → Option (String × List Char)
  | c :: rest => if c = '"' then jsonStringBody rest [] else none
  | [] => none

/-- Read one "key": "value" pair. -/
def jsonPair (cs : List Char) : Option ((String × String) × List Char) :=
  match jsonString cs with
  | none => none
  | some (k, rest) =>
      match rest with
      | ':' :: ' ' :: rest2 =>
          match jsonString rest2 with
          | none => none
          | some (v, rest3) => some ((k, v), rest3)
      | _ => none

/-- Read the pair list after the opening brace (fuelled recursion). -/
def jsonPairsAux : Nat → List Char → Option (List (String × String))
  | 0, _ => none
  | Nat.succ fuel, cs =>
      match jsonPair cs with
      | none => none
      | some (kv, rest) =>
          match rest with
          | [] => none
          | c :: rest2 =>
              if c = '\x7d' then (if rest2 = [] then some [kv] else none)
              else if c = ',' then
                match rest2 with
                | ' ' :: rest3 => (jsonPairsAux fuel rest3).map (kv :: ·)
                | _ => none
              else none

/-- json.loads restricted to the flat string-valued objects this
system stores (anything else raises json.JSONDecodeError, modelled as
none). -/
def jsonLoadsObj (s : String) : Option (List (String × String)) :=
  match s.toList with
  | [] => none
  | c :: rest =>
      if c = '\x7b' then
        if rest = ['\x7d'] then some []
        else jsonPairsAux rest.length rest
      else none

/- ════════════════════════════════════════════════════════════
   Canonical (sort_keys=True) parameter serialization
   ════════════════════════════════════════════════════════════ -/

/-- Order on key/value pairs: by key, ties by value.  json.dumps with
sort_keys=True sorts a dict's (unique) keys; the value tiebreak only
makes the order antisymmetric on arbitrary pair lists. -/
def paramLe (a b : String × String) : Prop :=
  a.1 < b.1 ∨ (a.1 = b.1 ∧ a.2 ≤ b.2)

instance : DecidableRel paramLe := fun a b =>
  inferInstanceAs (Decidable (a.1 < b.1 ∨ (a.1 = b.1 ∧ a.2 ≤ b.2)))

instance : IsTotal (String × String) paramLe where
  total a b := by
    rcases lt_trichotomy a.1 b.1 with h | h | h
    · exact Or.inl (Or.inl h)
    · rcases le_total a.2 b.2 with h2 | h2
      · exact Or.inl (Or.inr ⟨h, h2⟩)
      · exact Or.inr (Or.inr ⟨h.symm, h2⟩)
    · exact Or.inr (Or.inl h)

instance : IsTrans (String × String) paramLe where
  trans a b c hab hbc := by
    rcases hab with h1 | ⟨h1, h1v⟩ <;> rcases hbc with h2 | ⟨h2, h2v⟩
    · exact Or.inl (lt_trans h1 h2)
    · exact Or.inl (h2 ▸ h1)
    · exact Or.inl (h1 ▸ h2)
    · exact Or.inr ⟨h1.trans h2, le_trans h1v h2v⟩

instance : IsAntisymm (String × String) paramLe where
  antisymm a b hab hba := by
    rcases hab with h1 | ⟨h1, h1v⟩
    · rcases hba with h2 | ⟨h2, h2v⟩
      · exact absurd (lt_trans h1 h2) (lt_irrefl _)
      · exact absurd h1 (h2 ▸ lt_irrefl _)
    · rcases hba with h2 | ⟨h2, h2v⟩
      · exact absurd h2 (h1 ▸ lt_irrefl _)
      · exact Prod.ext h1 (le_antisymm h1v h2v)

/-- json.dumps(params, sort_keys=True) for a flat string-valued map. -/
def jsonDumpsSorted (params : List (String × String)) : String :=
  jsonObjDumps (List.insertionSort paramLe params)

/- ════════════════════════════════════════════════════════════
   Workflow queue (agents/workflow_queue.py)
   ════════════════════════════════════════════════════════════ -/

/-- WorkflowRequest (schemas.py), with the parameter map as a flat
string-valued dict and the timestamp kept as its isoformat string. -/
structure WorkflowRequest where
  request_id : String
  requesting_agent : String
  request_type : String
  params : List (String × String)
  timestamp : String
  status : String := "pending"
deriving DecidableEq, Repr

/-- The shared Redis store as the queue uses it: per-key hash records,
the workflow:queue list (lpush prepends at the head, rpop removes the
tail), and the per-key TTLs installed by expire (expiry itself is an
external event, modelled by a record simply being absent). -/
structure RedisState where
  hashes : List (String × List (String × String))
  queue : List String
  ttls : List (String × Nat)
deriving DecidableEq, Repr

/-- Redis hset with a field mapping: creates the hash if absent and
sets each field in mapping order, leaving other fields intact. -/
def hsetMapping (st : RedisState) (key : String) (mapping : List (String × String)) : RedisState :=
  let fields := (alGet st.hashes key).getD []
  { st with
    hashes := alSet st.hashes key (mapping.foldl (fun fs kv => alSet fs kv.1 kv.2) fields) }

/-- WorkflowQueue._generate_request_id (workflow_queue.py lines 67-74):
md5(request_type ':' json.dumps(params, sort_keys=True)).  The md5
hex digest is an opaque function of the dedup string, so the model is
parametric in it; every property proved holds for the real digest. -/
def generate_request_id (md5hex : String → String) (r : WorkflowRequest) : String :=
  md5hex (r.request_type ++ ":" ++ jsonDumpsSorted r.params)

/-- WorkflowQueue._get_request_key. -/
def requestKey (request_id : String) : String :=
  "workflow:request:" ++ request_id

/-- Settings consumed by the queue
(settings.workflow.queue_processing_timeout). -/
structure QueueConfig where
  timeout : Nat
deriving DecidableEq, Repr

/-- The dedup check of enqueue (workflow_queue.py lines 105-109):
`existing_request and existing_request.get(b'status') in [b'pending',
b'in_progress']` (hgetall of a missing key is the falsy empty dict). -/
def requestActive (st : RedisState) (key : String) : Bool :=
  match alGet st.hashes key with
  | none => false
  | some fields =>
      !fields.isEmpty &&
        (alGet fields "status" == some "pending" || alGet fields "status" == some "in_progress")

/-- Redis hset through the redis-py command encoder, which encodes
every mapping value before sending the command: a Python None value
raises redis.exceptions.DataError and nothing is written; with
all-string values it behaves as hsetMapping.  (The mark_* lifecycle
calls pass all-string mappings, so the encoder never raises there.) -/
def hsetEncoded (st : RedisState) (key : String) (mapping : List (String × Option String)) :
    Except String RedisState :=
  if mapping.any fun kv => kv.2.isNone then
    Except.error "DataError: Invalid input of type NoneType"
  else
    Except.ok (hsetMapping st key (mapping.filterMap fun kv => kv.2.map fun v => (kv.1, v)))

/-- WorkflowQueue.enqueue (workflow_queue.py lines 84-131): derive the
dedup id; if an active record exists, return it unchanged before any
write.  Otherwise the creation path first awaits
hset(request_key, mapping=request_data) with request_data carrying
the Python value None under the result key (line 119) — redis-py
(redis.asyncio) raises DataError on that None, so the hash store, the
lpush, and the expire never execute and enqueue propagates the
exception instead of returning the id.  The stored params would use
plain json.dumps (unsorted). -/
def enqueue (md5hex : String → String) (cfg : QueueConfig) (r : WorkflowRequest) (st : RedisState) :
    Except String (String × RedisState) :=
  let request_id := generate_request_id md5hex r
  let request_key := requestKey request_id
  if requestActive st request_key then
    Except.ok (request_id, st)
  else
    let request_data : List (String × Option String) :=
      [("request_id", some request_id),
       ("requesting_agent", some r.requesting_agent),
       ("request_type", some r.request_type),
       ("params", some (jsonObjDumps r.params)),
       ("timestamp", some r.timestamp),
       ("status", some "pending"),
       ("result", none)]
    match hsetEncoded st request_key request_data with
    | Except.error e => Except.error e
    | Except.ok st1 =>
        let st2 := { st1 with queue := request_id :: st1.queue }
        Except.ok (request_id, { st2 with ttls := alSet st2.ttls request_key (cfg.timeout * 2) })

/-- The record parse in get_next_request (workflow_queue.py lines
204-214): field access raising KeyError, or json.loads of params
raising JSONDecodeError, is caught and yields None. -/
def parse_workflow_request (fields : List (String × String)) : Option WorkflowRequest :=
  match alGet fields "request_id", alGet fields "requesting_agent",
        alGet fields "request_type", alGet fields "params",
        alGet fields "timestamp", alGet fields "status" with
  | some rid, some agent, some rtype, some ps, some ts, some status =>
      match jsonLoadsObj ps with
      | none => none
      | some params =>
          some { request_id := rid, requesting_agent := agent, request_type := rtype,
                 params := params, timestamp := ts, status := status }
  | _, _, _, _, _, _ => none

/-- WorkflowQueue.get_next_request (workflow_queue.py lines 178-214):
rpop one id; empty queue → none; missing (e.g. TTL-expired) record →
none; unparseable record → none.  In every non-empty case the popped
id has already left the queue and is never re-queued. -/
def get_next_request (st : RedisState) : Option WorkflowRequest × RedisState :=
  match st.queue.getLast? with
  | none => (none, st)
  | some request_id =>
      let st' := { st with queue := st.queue.dropLast }
      match alGet st.hashes (requestKey request_id) with
      | none => (none, st')
      | some fields =>
          if fields.isEmpty then (none, st')
          else (parse_workflow_request fields, st')

/-- WorkflowQueue.mark_in_progress (lines 216-222): unconditionally
hset status = in_progress. -/
def mark_in_progress (request_id : String) (st : RedisState) : RedisState :=
  hsetMapping st (requestKey request_id) [("status", "in_progress")]

/-- WorkflowQueue.mark_completed (lines 224-234): unconditionally hset
status = completed with the serialized result and a timestamp. -/
def mark_completed (request_id : String) (result : List (String × String)) (now : String)
    (st : RedisState) : RedisState :=
  hsetMapping st (requestKey request_id)
    [("status", "completed"), ("result", jsonObjDumps result), ("completed_at", now)]

/-- WorkflowQueue.mark_failed (lines 236-246): unconditionally hset
status = failed with the error payload and a timestamp. -/
def mark_failed (request_id : String) (error : String) (now : String)
    (st : RedisState) : RedisState :=
  hsetMapping st (requestKey request_id)
    [("status", "failed"), ("result", jsonObjDumps [("error", error)]), ("failed_at", now)]

/-- WorkflowQueue.get_request_status (lines 248-259): none when the
record is missing, else the status field (default pending). -/
def get_request_status (st : RedisState) (request_id : String) : Option String :=
  match alGet st.hashes (requestKey request_id) with
  | none => none
  | some fields => some ((alGet fields "status").getD "pending")

/-- One lifecycle call on a fixed request id, with the wall clock
reading the call observes. -/
inductive QueueOp
  | mark_in_progress
  | mark_completed (result : List (String × String)) (now : String)
  | mark_failed (error : String) (now : String)
deriving DecidableEq, Repr

/-- Apply one lifecycle call. -/
def applyQueueOp (request_id : String) (st : RedisState) : QueueOp → RedisState
  | QueueOp.mark_in_progress => mark_in_progress request_id st
  | QueueOp.mark_completed result now => mark_completed request_id result now st
  | QueueOp.mark_failed error now => mark_failed request_id error now st

/-- Run a sequence of lifecycle calls. -/
def runQueueOps (request_id : String) (st : RedisState) (ops : List QueueOp) : RedisState :=
  ops.foldl (applyQueueOp request_id) st

/-- The status string each lifecycle call writes. -/
def opStatus : QueueOp → String
  | QueueOp.mark_in_progress => "in_progress"
  | QueueOp.mark_completed _ _ => "completed"
  | QueueOp.mark_failed _ _ => "failed"

/-- Whether a lifecycle call writes a terminal status. -/
def isTerminalOp : QueueOp → Bool
  | QueueOp.mark_in_progress => false
  | _ => true

/-- Whether a lifecycle call is mark_in_progress. -/
def isInProgressOp : QueueOp → Bool
  | QueueOp.mark_in_progress => true
  | _ => false

/-- Position of an observed status in the lifecycle chain
pending → in_progress → \x7bcompleted, failed\x7d. -/
def statusRank : Option String → Nat
  | some "in_progress" => 1
  | some "completed" => 2
  | some "failed" => 2
  | _ => 0

/- ════════════════════════════════════════════════════════════
   Context-resolution cache (agent_factory.py, _spawn_context_agents)
   ════════════════════════════════════════════════════════════ -/

/-- What a disposable context agent returns on a successful await:
the context_found payload plus cost/token estimates.  The agent
catches its own tool errors internally, so even a failing tool
surfaces here as a normal result. -/
structure ContextAgentResult where
  raw : String
  summary : String
  cost : ℚ
  tokens : Nat
deriving DecidableEq, Repr

/-- The two cache tiers visible to `_spawn_context_agents`: the
state's in-memory context_cache (none when the state type has no such
field, e.g. ReviewAgentState) and the external Redis TTL store (none
when the Redis connection failed; presence of a key models an
unexpired entry within its TTL window). -/
structure CacheState where
  context_cache : Option (List (String × ContextRecord))
  redis : Option (List (String × ContextRecord))
deriving DecidableEq, Repr

/-- The composite cache key (agent_factory.py line 201):
type ':' query ':' comma-joined files. -/
def contextCacheKey (req : ContextRequest) : String :=
  req.type ++ ":" ++ req.query ++ ":" ++ String.intercalate "," req.files

/-- Resolution of one context request (agent_factory.py lines
196-277): check the in-memory cache (guarded by dict truthiness),
then Redis (JSON round-trip modelled as the identity), then invoke
the context agent.  On a successful invocation the item is setex'd
into Redis and — the try/else arm, taken whenever the Redis write
raises no exception — written into the in-memory cache when present.
A spawn-level exception yields a failed record that is not cached.
Returns (record, new cache state, whether the agent was invoked). -/
def spawn_resolve_one (agentResult : ContextRequest → Except String ContextAgentResult)
    (current_iteration : Nat) (req : ContextRequest) (st : CacheState) :
    ContextRecord × CacheState × Bool :=
  let cache_key := contextCacheKey req
  let memHit : Option ContextRecord :=
    match st.context_cache with
    | some m => if m.isEmpty then none else alGet m cache_key
    | none => none
  match memHit with
  | some rec => (rec, st, false)
  | none =>
    let redisHit : Option ContextRecord :=
      match st.redis with
      | some rmap => alGet rmap cache_key
      | none => none
    match redisHit with
    | some rec => (rec, st, false)
    | none =>
      match agentResult req with
      | Except.ok res =>
          let gathered_item : ContextRecord :=
            { iteration := current_iteration
              context_type := req.type
              result := ContextPayload.found res.raw res.summary
              cost_usd := res.cost
              tokens := res.tokens
              cache_key := cache_key
              failed := false }
          (gathered_item,
           { context_cache := st.context_cache.map fun m => alSet m cache_key gathered_item
             redis := st.redis.map fun rmap => alSet rmap cache_key gathered_item },
           true)
      | Except.error e =>
          ({ iteration := current_iteration
             context_type := req.type
             result := ContextPayload.error e
             cost_usd := 0
             tokens := 0
             cache_key := cache_key
             failed := true }, st, true)

/-- The gather loop of `_spawn_context_agents`: resolve each request
in order, threading the cache state; also counts agent invocations. -/
def spawn_context_agents_loop (agentResult : ContextRequest → Except String ContextAgentResult)
    (current_iteration : Nat) (reqs : List ContextRequest) (st : CacheState) :
    List ContextRecord × CacheState × Nat :=
  match reqs with
  | [] => ([], st, 0)
  | req :: rest =>
      let step := spawn_resolve_one agentResult current_iteration req st
      let tail := spawn_context_agents_loop agentResult current_iteration rest step.2.1
      (step.1 :: tail.1, tail.2.1, (if step.2.2 then 1 else 0) + tail.2.2)

/- ════════════════════════════════════════════════════════════
   Helper lemmas
   ════════════════════════════════════════════════════════════ -/

/-- Multiplying a max-with-zero by a nonnegative constant on the right
distributes: max 0 (z*c) = c * max 0 z when 0 ≤ c. -/
theorem max_zero_mul_nonneg (z c : ℚ) (hc : 0 ≤ c) :
    max 0 (z * c) = c * max 0 z := by
  rcases le_total z 0 with h | h
  · rw [max_eq_left (mul_nonpos_of_nonpos_of_nonneg h hc), max_eq_left h, mul_zero]
  · rw [max_eq_right (mul_nonneg h hc), max_eq_right h, mul_comm]

/-- Looking up the key just set returns the new value. -/
theorem alGet_alSet_self {β : Type} (l : List (String × β)) (k : String) (v : β) :
    alGet (alSet l k v) k = some v := by
  induction l with
  | nil => simp [alSet, alGet]
  | cons hd tl ih =>
      obtain ⟨k0, v0⟩ := hd
      by_cases h : k0 = k
      · subst h; simp [alSet, alGet]
      · simp [alSet, alGet, h, ih]

/-- Setting one key leaves lookups of other keys unchanged. -/
theorem alGet_alSet_of_ne {β : Type} (l : List (String × β)) (k k' : String) (v : β)
    (h : k ≠ k') : alGet (alSet l k v) k' = alGet l k' := by
  induction l with
  | nil => simp [alSet, alGet, h]
  | cons hd tl ih =>
      obtain ⟨k0, v0⟩ := hd
      by_cases h0 : k0 = k
      · subst h0
        simp [alSet, alGet, h]
      · simp [alSet, alGet, h0, ih]

/-- Setting a key never empties an association list. -/
theorem alSet_ne_nil {β : Type} (l : List (String × β)) (k : String) (v : β) :
    alSet l k v ≠ [] := by
  cases l with
  | nil => simp [alSet]
  | cons hd tl =>
      obtain ⟨k0, v0⟩ := hd
      by_cases h : k0 = k <;> simp [alSet, h]

/-- An association list with a key just set is never isEmpty. -/
theorem alSet_isEmpty {β : Type} (l : List (String × β)) (k : String) (v : β) :
    (alSet l k v).isEmpty = false := by
  cases hl : alSet l k v with
  | nil => exact absurd hl (alSet_ne_nil l k v)
  | cons a t => rfl

/-- Every lifecycle call unconditionally overwrites the record's
status with its own status string, whatever the record held before. -/
theorem get_request_status_applyQueueOp (request_id : String) (st : RedisState) (op : QueueOp) :
    get_request_status (applyQueueOp request_id st op) request_id = some (opStatus op) := by
  have hres : ∀ (fs : List (String × String)) (v : String),
      alGet (alSet fs "result" v) "status" = alGet fs "status" :=
    fun fs v => alGet_alSet_of_ne fs "result" "status" v (by decide)
  have hcat : ∀ (fs : List (String × String)) (v : String),
      alGet (alSet fs "completed_at" v) "status" = alGet fs "status" :=
    fun fs v => alGet_alSet_of_ne fs "completed_at" "status" v (by decide)
  have hfat : ∀ (fs : List (String × String)) (v : String),
      alGet (alSet fs "failed_at" v) "status" = alGet fs "status" :=
    fun fs v => alGet_alSet_of_ne fs "failed_at" "status" v (by decide)
  cases op with
  | mark_in_progress =>
      simp [applyQueueOp, mark_in_progress, hsetMapping, get_request_status, opStatus,
            alGet_alSet_self]
  | mark_completed result now =>
      simp [applyQueueOp, mark_completed, hsetMapping, get_request_status, opStatus,
            alGet_alSet_self, hres, hcat]
  | mark_failed error now =>
      simp [applyQueueOp, mark_failed, hsetMapping, get_request_status, opStatus,
            alGet_alSet_self, hres, hfat]

/-- After a non-empty sequence of lifecycle calls the record's status
is the one written by the last call. -/
theorem get_request_status_runQueueOps_getLast (request_id : String) (st : RedisState)
    (ops : List QueueOp) (op : QueueOp) (h : ops.getLast? = some op) :
    get_request_status (runQueueOps request_id st ops) request_id = some (opStatus op) := by
  induction ops generalizing st with
  | nil => simp at h
  | cons hd tl ih =>
      cases tl with
      | nil =>
          simp at h
          subst h
          simpa [runQueueOps] using get_request_status_applyQueueOp request_id st hd
      | cons b t =>
          rw [List.getLast?_cons_cons] at h
          have hstep : runQueueOps request_id st (hd :: b :: t) =
              runQueueOps request_id (applyQueueOp request_id st hd) (b :: t) := by
            simp [runQueueOps]
          rw [hstep]
          exact ih (applyQueueOp request_id st hd) h

/- ════════════════════════════════════════════════════════════
   Claim theorems: C4, C6, C7
   ════════════════════════════════════════════════════════════ -/

/-- C4: for every list of verdict reports V, `_determine_overall_verdict`
returns NO_REVIEW iff V is empty; PASS iff V is non-empty and every
verdict is PASS; NEEDS_WORK iff some verdict in V is FAIL, NEEDS_WORK,
or WARN. -/
theorem overall_verdict_aggregation_law (reports : List ReviewAgentVerdict) :
    (determine_overall_verdict reports = OverallVerdict.NO_REVIEW ↔ reports = []) ∧
    (determine_overall_verdict reports = OverallVerdict.PASS ↔
      reports ≠ [] ∧ ∀ r ∈ reports, r.verdict = Verdict.PASS) ∧
    (determine_overall_verdict reports = OverallVerdict.NEEDS_WORK ↔
      ∃ r ∈ reports, r.verdict = Verdict.FAIL ∨ r.verdict = Verdict.NEEDS_WORK ∨
        r.verdict = Verdict.WARN) := by
  have hmem : ∀ v : Verdict, verdictNeedsWork v = true ↔
      (v = Verdict.FAIL ∨ v = Verdict.NEEDS_WORK ∨ v = Verdict.WARN) := by
    intro v; cases v <;> simp [verdictNeedsWork]
  have hpass : ∀ v : Verdict, verdictNeedsWork v = false ↔ v = Verdict.PASS := by
    intro v; cases v <;> simp [verdictNeedsWork]
  unfold determine_overall_verdict
  by_cases hnil : reports = []
  · subst hnil; simp
  · rw [if_neg hnil]
    by_cases hany : reports.any fun r => verdictNeedsWork r.verdict
    · rw [if_pos hany]
      rw [List.any_eq_true] at hany
      obtain ⟨r, hr, hv⟩ := hany
      refine ⟨by simp [hnil], ?_, ?_⟩
      · constructor
        · intro h; exact absurd h (by simp)
        · rintro ⟨-, hall⟩
          have hP := hall r hr
          rw [hP] at hv
          exact absurd hv (by decide)
      · exact ⟨fun _ => ⟨r, hr, (hmem r.verdict).1 hv⟩, fun _ => rfl⟩
    · rw [if_neg hany]
      rw [List.any_eq_true] at hany
      push_neg at hany
      refine ⟨by simp [hnil], ?_, ?_⟩
      · refine ⟨fun _ => ⟨hnil, fun r hr => ?_⟩, fun _ => rfl⟩
        exact (hpass r.verdict).1 (Bool.eq_false_iff.2 (hany r hr))
      · constructor
        · intro h; exact absurd h (by simp)
        · rintro ⟨r, hr, hv⟩
          exact absurd ((hmem r.verdict).2 hv) (hany r hr)

/-- C6: the confidence of the verdict emitted by finalize equals the
spec formula clamp(0.1, 0.95, 0.8 + min(0.1, 0.02×|context records|)
− 0.2×|high findings| − 0.1×|medium findings|
− 0.1×max(0, current_iteration − max_iterations)). -/
theorem finalize_confidence_formula (template : ReviewTemplate) (state : ReviewAgentState) :
    (review_agent_finalize template state).confidence =
      specClaimedConfidence template.max_iterations
        state.context_gathered.length
        (state.findings.filter fun f => f.severity = Severity.high).length
        (state.findings.filter fun f => f.severity = Severity.medium).length
        state.current_iteration := by
  show review_agent_confidence template state = _
  unfold review_agent_confidence specClaimedConfidence clamp
  rw [max_zero_mul_nonneg _ (1/10) (by norm_num), Int.cast_max]
  push_cast
  ring_nf

/-- C7: the verdict emitted by finalize is determined solely by the
findings' severities: FAIL iff some finding is high; WARN iff no high
and some medium; NEEDS_WORK iff no high, no medium, and findings
non-empty; PASS iff there are no findings. -/
theorem finalize_verdict_from_severities (template : ReviewTemplate) (state : ReviewAgentState) :
    ((review_agent_finalize template state).verdict = Verdict.FAIL ↔
      ∃ f ∈ state.findings, f.severity = Severity.high) ∧
    ((review_agent_finalize template state).verdict = Verdict.WARN ↔
      (∀ f ∈ state.findings, f.severity ≠ Severity.high) ∧
      ∃ f ∈ state.findings, f.severity = Severity.medium) ∧
    ((review_agent_finalize template state).verdict = Verdict.NEEDS_WORK ↔
      (∀ f ∈ state.findings, f.severity ≠ Severity.high ∧ f.severity ≠ Severity.medium) ∧
      state.findings ≠ []) ∧
    ((review_agent_finalize template state).verdict = Verdict.PASS ↔
      state.findings = []) := by
  show (review_agent_verdict state = _ ↔ _) ∧ (review_agent_verdict state = _ ↔ _) ∧
    (review_agent_verdict state = _ ↔ _) ∧ (review_agent_verdict state = _ ↔ _)
  unfold review_agent_verdict
  have hhigh : ((state.findings.filter fun f => f.severity = Severity.high) ≠ []) ↔
      ∃ f ∈ state.findings, f.severity = Severity.high := by
    rw [ne_eq, List.filter_eq_nil_iff]
    push_neg
    simp
  have hmed : ((state.findings.filter fun f => f.severity = Severity.medium) ≠ []) ↔
      ∃ f ∈ state.findings, f.severity = Severity.medium := by
    rw [ne_eq, List.filter_eq_nil_iff]
    push_neg
    simp
  have hnohigh : ((state.findings.filter fun f => f.severity = Severity.high) = []) ↔
      ∀ f ∈ state.findings, f.severity ≠ Severity.high := by
    rw [List.filter_eq_nil_iff]; simp
  have hnomed : ((state.findings.filter fun f => f.severity = Severity.medium) = []) ↔
      ∀ f ∈ state.findings, f.severity ≠ Severity.medium := by
    rw [List.filter_eq_nil_iff]; simp
  by_cases h1 : (state.findings.filter fun f => f.severity = Severity.high) = []
  · by_cases h2 : (state.findings.filter fun f => f.severity = Severity.medium) = []
    · by_cases h3 : state.findings = []
      · refine ⟨?_, ?_, ?_, ?_⟩ <;> simp_all
      · rw [if_neg (by simp [h1]), if_neg (by simp [h2]), if_pos h3]
        refine ⟨?_, ?_, ?_, by simp [h3]⟩
        · simp only [show Verdict.NEEDS_WORK ≠ Verdict.FAIL from by decide, false_iff]
          intro hex
          exact absurd (hhigh.2 hex) (by simp [h1])
        · simp only [show Verdict.NEEDS_WORK ≠ Verdict.WARN from by decide, false_iff]
          rintro ⟨-, hex⟩
          exact absurd (hmed.2 hex) (by simp [h2])
        · constructor
          · intro _
            exact ⟨fun f hf => ⟨hnohigh.1 h1 f hf, hnomed.1 h2 f hf⟩, h3⟩
          · intro _; rfl
    · rw [if_neg (by simp [h1]), if_pos h2]
      refine ⟨?_, ?_, ?_, ?_⟩
      · simp only [show Verdict.WARN ≠ Verdict.FAIL from by decide, false_iff]
        rintro hex
        exact absurd (hhigh.2 hex) (by simp [h1])
      · exact ⟨fun _ => ⟨hnohigh.1 h1, hmed.1 h2⟩, fun _ => rfl⟩
      · simp only [show Verdict.WARN ≠ Verdict.NEEDS_WORK from by decide, false_iff]
        rintro ⟨hall, -⟩
        obtain ⟨f, hf, hfm⟩ := hmed.1 h2
        exact (hall f hf).2 hfm
      · simp only [show Verdict.WARN ≠ Verdict.PASS from by decide, false_iff]
        intro h3
        exact h2 (by simp [h3])
  · rw [if_pos h1]
    refine ⟨⟨fun _ => hhigh.1 h1, fun _ => rfl⟩, ?_, ?_, ?_⟩
    · simp only [show Verdict.FAIL ≠ Verdict.WARN from by decide, false_iff]
      rintro ⟨hall, -⟩
      obtain ⟨f, hf, hfh⟩ := hhigh.1 h1
      exact hall f hf hfh
    · simp only [show Verdict.FAIL ≠ Verdict.NEEDS_WORK from by decide, false_iff]
      rintro ⟨hall, -⟩
      obtain ⟨f, hf, hfh⟩ := hhigh.1 h1
      exact (hall f hf).1 hfh
    · simp only [show Verdict.FAIL ≠ Verdict.PASS from by decide, false_iff]
      intro h3
      exact h1 (by simp [h3])

/- ════════════════════════════════════════════════════════════
   Claim theorems: C1, C5, C9
   ════════════════════════════════════════════════════════════ -/

/-- C1: evaluation of the compiled subgraph at the failing input.  For
the alignment specialty (max_iterations = 3), starting from the state
the orchestrator constructs (current_iteration = 1), with every
analyze step reporting needs_more_context = true: plan runs exactly
once and is the only node that increments current_iteration, so the
counter is stuck at 2 while the analyze → spawn_context edge tests
2 < 3 forever.  After 9 supersteps the subgraph has performed 4
analyze iterations — more than max_iterations — and is still looping
(node spawn_context), refuting the claimed bound of m analyze
iterations. -/
theorem alignment_iteration_bound_violated :
    reviewAgentTemplates.lookup "alignment" = some { max_iterations := 3, context_agent_budget := 2 } ∧
    (subgraph_run { max_iterations := 3, context_agent_budget := 2 } alwaysNeedsMoreEnv 9
      { node := SubgraphNode.plan
        state := initial_review_agent_state "alignment"
        spawn_count := 0
        analyze_count := 0 }).analyze_count = 4 ∧
    3 < 4 ∧
    (subgraph_run { max_iterations := 3, context_agent_budget := 2 } alwaysNeedsMoreEnv 9
      { node := SubgraphNode.plan
        state := initial_review_agent_state "alignment"
        spawn_count := 0
        analyze_count := 0 }).node = SubgraphNode.spawn_context ∧
    (subgraph_run { max_iterations := 3, context_agent_budget := 2 } alwaysNeedsMoreEnv 9
      { node := SubgraphNode.plan
        state := initial_review_agent_state "alignment"
        spawn_count := 0
        analyze_count := 0 }).state.current_iteration = 2 := by
  refine ⟨rfl, ?_, by norm_num, ?_, ?_⟩ <;> rfl

/-- C5: run_review_agents produces exactly one report per planned
specialty, in plan order; a timed-out specialist's slot carries a WARN
verdict with confidence 0.1 noting the timeout, a specialist that
raised any other exception carries a NEEDS_WORK verdict with the error
text, and no sibling's slot is removed (the report list has exactly
the planned length regardless of outcomes). -/
theorem run_specialists_one_slot_per_specialty
    (plan : List String) (outcomes : String → AgentOutcome) :
    (run_review_agents plan outcomes).length = plan.length ∧
    (∀ (i : Nat) name, plan[i]? = some name →
      (run_review_agents plan outcomes)[i]? =
        some (run_single_agent_report name (outcomes name))) ∧
    (∀ name, outcomes name = AgentOutcome.timeout →
      (run_single_agent_report name (outcomes name)).verdict = Verdict.WARN ∧
      (run_single_agent_report name (outcomes name)).confidence = 1/10 ∧
      (run_single_agent_report name (outcomes name)).specialty = name ∧
      (run_single_agent_report name (outcomes name)).summary =
        "Agent " ++ name ++ " timed out during execution") ∧
    (∀ name e, outcomes name = AgentOutcome.failure e →
      (run_single_agent_report name (outcomes name)).verdict = Verdict.NEEDS_WORK ∧
      (run_single_agent_report name (outcomes name)).confidence = 1/10 ∧
      (run_single_agent_report name (outcomes name)).specialty = name ∧
      (run_single_agent_report name (outcomes name)).summary =
        "Agent " ++ name ++ " failed: " ++ e) := by
  refine ⟨by simp [run_review_agents], ?_, ?_, ?_⟩
  · intro i name hname
    simp [run_review_agents, hname]
  · intro name ht
    rw [ht]
    exact ⟨rfl, rfl, rfl, rfl⟩
  · intro name e hf
    rw [hf]
    exact ⟨rfl, rfl, rfl, rfl⟩

/-- C5 witness: a concrete two-agent plan where security times out and
testing raises; both slots survive with the degraded verdicts. -/
theorem run_specialists_one_slot_per_specialty_witness :
    (run_review_agents ["security", "testing"]
      (fun n => if n = "security" then AgentOutcome.timeout else AgentOutcome.failure "boom")).length = 2 ∧
    ((run_review_agents ["security", "testing"]
      (fun n => if n = "security" then AgentOutcome.timeout else AgentOutcome.failure "boom"))[0]?.map
        (fun r => r.verdict)) = some Verdict.WARN ∧
    ((run_review_agents ["security", "testing"]
      (fun n => if n = "security" then AgentOutcome.timeout else AgentOutcome.failure "boom"))[1]?.map
        (fun r => r.verdict)) = some Verdict.NEEDS_WORK := by
  have h := run_specialists_one_slot_per_specialty ["security", "testing"]
    (fun n => if n = "security" then AgentOutcome.timeout else AgentOutcome.failure "boom")
  obtain ⟨hlen, hslots, htime, hfail⟩ := h
  have h0 := hslots 0 "security" rfl
  have h1 := hslots 1 "testing" rfl
  have ht := htime "security" (by simp)
  have hf := hfail "testing" "boom" (by simp)
  refine ⟨hlen, ?_, ?_⟩
  · rw [h0, Option.map_some', ht.1]
  · rw [h1, Option.map_some', hf.1]

/-- C9: when repo_memory, similar_prs, and repo_conventions are all
already non-empty, load_memory's partial update contains none of those
fields (every caller-supplied value is kept), whatever the environment
— including unavailable or failing database and convention-file reads;
totality of the embedded function reflects that load_memory never
raises. -/
theorem load_memory_preserves_populated_fields
    (env : MemoryEnv) (st : OrchestratorMemoryState)
    (h1 : st.repo_memory ≠ []) (h2 : st.similar_prs ≠ []) (h3 : st.repo_conventions ≠ []) :
    load_memory env st =
      { repo_memory := none, similar_prs := none, repo_conventions := none } := by
  unfold load_memory
  rw [if_neg h1, if_neg h2, if_neg h3]

/-- C9 witness: a concrete populated state under a fully failing
environment; the update leaves all three fields alone. -/
theorem load_memory_preserves_populated_fields_witness :
    load_memory
      { learning_enabled := true, asyncpg_available := true, postgres_url := some "postgres://db"
        query_fails := true, similar_rows := []
        convention_file_content := fun _ => some "content"
        convention_read_fails := fun _ => true }
      { repo_memory := [("common_issues", "[]")]
        similar_prs := [{ pr_number := 7, pr_title := "t", pr_complexity := "simple", summary := "s" }]
        repo_conventions := ["Use type hints for all public functions"] } =
      { repo_memory := none, similar_prs := none, repo_conventions := none } :=
  load_memory_preserves_populated_fields _ _ (by simp) (by simp) (by simp)

/- ════════════════════════════════════════════════════════════
   Claim theorems: C3, C10
   ════════════════════════════════════════════════════════════ -/

/-- C3 counterexample: the lifecycle is not monotonic as claimed.  On
a freshly enqueued pending record, mark_completed reaches the
terminal status completed, yet a subsequent mark_in_progress moves
the record back to in_progress — a backward transition observable by
any waiter, contradicting the claim that a terminal status is never
left for pending or in_progress. -/
theorem lifecycle_monotonicity_counterexample :
    get_request_status
      (mark_completed "42" [("ok", "true")] "2024-01-01T00:00:01"
        { hashes := [("workflow:request:42", [("status", "pending")])]
          queue := [], ttls := [] }) "42" = some "completed" ∧
    get_request_status
      (mark_in_progress "42"
        (mark_completed "42" [("ok", "true")] "2024-01-01T00:00:01"
          { hashes := [("workflow:request:42", [("status", "pending")])]
            queue := [], ttls := [] })) "42" = some "in_progress" := by
  constructor <;> rfl

/-- C3 amended: each mark_* call unconditionally overwrites the
status, so monotonicity holds exactly for call sequences that never
invoke mark_in_progress after a terminal mark: starting from a
pending record, if in the call sequence no mark_in_progress occurs
after a mark_completed or mark_failed, then the observed status rank
(pending < in_progress < terminal) never decreases — in particular,
once the status is completed or failed, no later point of the
sequence shows pending or in_progress. -/
theorem lifecycle_monotonic_without_terminal_revisit (request_id : String) (st : RedisState)
    (hpend : get_request_status st request_id = some "pending") (l1 : List QueueOp) :
    ∀ l2 : List QueueOp,
      ((l1 ++ l2).Pairwise fun a b => isTerminalOp a = true → isInProgressOp b = false) →
      statusRank (get_request_status (runQueueOps request_id st l1) request_id) ≤
        statusRank (get_request_status (runQueueOps request_id st (l1 ++ l2)) request_id) := by
  intro l2
  induction l2 using List.reverseRecOn with
  | nil =>
      intro _
      rw [List.append_nil]
  | append_singleton l2' op ih =>
      intro hops
      have hassoc : l1 ++ (l2' ++ [op]) = (l1 ++ l2') ++ [op] := (List.append_assoc l1 l2' [op]).symm
      rw [hassoc] at hops ⊢
      have hops' := hops.sublist (List.sublist_append_left (l1 ++ l2') [op])
      refine le_trans (ih hops') ?_
      · have hrun : runQueueOps request_id st ((l1 ++ l2') ++ [op]) =
            applyQueueOp request_id (runQueueOps request_id st (l1 ++ l2')) op := by
          simp [runQueueOps, List.foldl_append]
        rw [hrun, get_request_status_applyQueueOp]
        by_cases hnil : l1 ++ l2' = []
        · rw [hnil]
          simp only [runQueueOps, List.foldl_nil]
          rw [hpend]
          have h0 : statusRank (some "pending") = 0 := by decide
          rw [h0]
          exact Nat.zero_le _
        · cases hco : (l1 ++ l2').getLast? with
          | none =>
              have hco2 : l1 ++ l2' = [] := by
                cases h : l1 ++ l2' with
                | nil => rfl
                | cons a tll => rw [h] at hco; simp at hco
              exact absurd hco2 hnil
          | some t =>
              rw [get_request_status_runQueueOps_getLast request_id st _ t hco]
              have hmem : t ∈ l1 ++ l2' := List.mem_of_mem_getLast? hco
              have hrel : isTerminalOp t = true → isInProgressOp op = false :=
                (List.pairwise_append.1 hops).2.2 t hmem op (by simp)
              cases t <;> cases op <;>
                first
                  | exact absurd (hrel rfl) (by decide)
                  | (simp only [opStatus]; decide)

/-- C3 amended witness: pending record, mark_in_progress then
mark_completed; the observed rank after the first call (in_progress,
rank 1) is at most the rank after both calls (completed, rank 2). -/
theorem lifecycle_monotonic_without_terminal_revisit_witness :
    statusRank (get_request_status
      (runQueueOps "42"
        { hashes := [("workflow:request:42", [("status", "pending")])], queue := [], ttls := [] }
        [QueueOp.mark_in_progress]) "42") ≤
    statusRank (get_request_status
      (runQueueOps "42"
        { hashes := [("workflow:request:42", [("status", "pending")])], queue := [], ttls := [] }
        ([QueueOp.mark_in_progress] ++ [QueueOp.mark_completed [("ok", "true")] "t1"])) "42") :=
  lifecycle_monotonic_without_terminal_revisit "42"
    { hashes := [("workflow:request:42", [("status", "pending")])], queue := [], ttls := [] }
    (by rfl) [QueueOp.mark_in_progress] [QueueOp.mark_completed [("ok", "true")] "t1"]
    (by simp [List.pairwise_cons, isTerminalOp])

/-- C10: get_next_request pops from the FIFO tail; it returns none
when the queue is empty, and also when the popped id's record is
missing (e.g. TTL-expired) or fails to parse; in every non-empty
case the popped id has already been removed from the queue and is
not re-queued, so (when it occurred once) every subsequent call
skips it. -/
theorem get_next_request_drop_semantics (st : RedisState) :
    (st.queue = [] → get_next_request st = (none, st)) ∧
    (∀ (l : List String) (request_id : String), st.queue = l ++ [request_id] →
      ((get_next_request st).2.queue = l ∧
       (alGet st.hashes (requestKey request_id) = none → (get_next_request st).1 = none) ∧
       (∀ fields, alGet st.hashes (requestKey request_id) = some fields →
          parse_workflow_request fields = none → (get_next_request st).1 = none) ∧
       (request_id ∉ l → request_id ∉ (get_next_request st).2.queue))) := by
  constructor
  · intro h
    simp [get_next_request, h]
  · intro l request_id hq
    have hlast : st.queue.getLast? = some request_id := by
      rw [hq]; exact List.getLast?_concat l
    have hdrop : st.queue.dropLast = l := by
      rw [hq]; exact List.dropLast_concat ..
    have hsnd : (get_next_request st).2 = { st with queue := st.queue.dropLast } := by
      unfold get_next_request
      rw [hlast]
      dsimp only
      cases halg : alGet st.hashes (requestKey request_id) with
      | none => rfl
      | some fields =>
          by_cases he : fields.isEmpty <;> simp [he]
    refine ⟨?_, ?_, ?_, ?_⟩
    · rw [hsnd]
      exact hdrop
    · intro hnone
      simp [get_next_request, hlast, hnone]
    · intro fields hsome hparse
      by_cases he : fields.isEmpty <;> simp [get_next_request, hlast, hsome, he, hparse]
    · intro hnot
      rw [hsnd]
      simpa [hdrop] using hnot

/-- C10 witness: an empty queue yields none; a queue whose only id has
no backing record yields none with the id dropped; a queue whose only
id has an unparseable record (its requesting_agent field is missing)
yields none with the id dropped. -/
theorem get_next_request_drop_semantics_witness :
    get_next_request { hashes := [], queue := [], ttls := [] } =
      (none, { hashes := [], queue := [], ttls := [] }) ∧
    (get_next_request { hashes := [], queue := ["dead"], ttls := [] }).1 = none ∧
    (get_next_request { hashes := [], queue := ["dead"], ttls := [] }).2.queue = [] ∧
    (get_next_request
      { hashes := [("workflow:request:bad", [("request_id", "bad")])]
        queue := ["bad"], ttls := [] }).1 = none ∧
    (get_next_request
      { hashes := [("workflow:request:bad", [("request_id", "bad")])]
        queue := ["bad"], ttls := [] }).2.queue = [] := by
  have hA := (get_next_request_drop_semantics { hashes := [], queue := [], ttls := [] }).1 rfl
  have hB := (get_next_request_drop_semantics { hashes := [], queue := ["dead"], ttls := [] }).2
    [] "dead" rfl
  have hC := (get_next_request_drop_semantics
    { hashes := [("workflow:request:bad", [("request_id", "bad")])]
      queue := ["bad"], ttls := [] }).2 [] "bad" rfl
  exact ⟨hA, hB.2.1 rfl, hB.1, hC.2.2.1 [("request_id", "bad")] rfl (by rfl), hC.1⟩

/- ════════════════════════════════════════════════════════════
   Claim theorems: C2, C8
   ════════════════════════════════════════════════════════════ -/

/-- C2: evaluation of enqueue at the failing input.  The id is indeed
a deterministic hash of the request type and the sort-keys-serialized
params only — two requests differing in request_id, requester, and
timestamp, with params reordered, get the same id — and an existing
active (pending) record short-circuits enqueue with the store
untouched, since the dedup check runs before any write.  But the
creation path never completes: request_data carries the Python value
None under the result key, redis-py raises DataError while encoding
the hset mapping, and enqueue raises before the record store, the
FIFO push, and the TTL — refuting the claim's creation conclusions
(the repository's tests mock hset, which is why they pass).  The
digest stand-ins are the identity for the invariance part and a
constant for the two evaluations; both parts hold for every digest
by parametricity of the model. -/
theorem enqueue_creation_path_raises :
    generate_request_id (fun s => s)
      { request_id := "caller-A", requesting_agent := "agent1", request_type := "run_ci",
        params := [("repo", "acme/widgets"), ("pr", "7")],
        timestamp := "2024-01-01T00:00:00" } =
    generate_request_id (fun s => s)
      { request_id := "caller-B", requesting_agent := "agent2", request_type := "run_ci",
        params := [("pr", "7"), ("repo", "acme/widgets")],
        timestamp := "2024-02-02T09:30:00" } ∧
    enqueue (fun _ => "deadbeef") { timeout := 300 }
      { request_id := "caller-B", requesting_agent := "agent2", request_type := "run_ci",
        params := [("pr", "7"), ("repo", "acme/widgets")],
        timestamp := "2024-02-02T09:30:00" }
      { hashes := [], queue := [], ttls := [] } =
      Except.error "DataError: Invalid input of type NoneType" ∧
    enqueue (fun _ => "deadbeef") { timeout := 300 }
      { request_id := "caller-B", requesting_agent := "agent2", request_type := "run_ci",
        params := [("pr", "7"), ("repo", "acme/widgets")],
        timestamp := "2024-02-02T09:30:00" }
      { hashes := [("workflow:request:deadbeef", [("status", "pending")])]
        queue := ["deadbeef"], ttls := [] } =
      Except.ok ("deadbeef",
        { hashes := [("workflow:request:deadbeef", [("status", "pending")])]
          queue := ["deadbeef"], ttls := [] }) := by
  have hsort : List.insertionSort paramLe [("repo", "acme/widgets"), ("pr", "7")] =
      List.insertionSort paramLe [("pr", "7"), ("repo", "acme/widgets")] :=
    List.eq_of_perm_of_sorted
      ((List.perm_insertionSort paramLe _).trans
        ((List.Perm.swap ("pr", "7") ("repo", "acme/widgets") []).trans
          (List.perm_insertionSort paramLe _).symm))
      (List.sorted_insertionSort paramLe _)
      (List.sorted_insertionSort paramLe _)
  refine ⟨?_, rfl, rfl⟩
  simp only [generate_request_id, jsonDumpsSorted]
  rw [hsort]

/-- C8: resolving the same (type, query, files) key twice, while at
least one cache tier exists (an in-memory context_cache on the state,
or a live Redis connection whose entry is within its TTL window) and
the context agent call succeeds, invokes the agent at most once: the
second resolution never invokes it and returns the first resolution's
record unchanged. -/
theorem context_cache_idempotent
    (agentResult : ContextRequest → Except String ContextAgentResult)
    (iter1 iter2 : Nat) (req : ContextRequest) (st : CacheState)
    (htier : st.context_cache ≠ none ∨ st.redis ≠ none)
    (res : ContextAgentResult) (hok : agentResult req = Except.ok res) :
    (spawn_resolve_one agentResult iter2 req
      (spawn_resolve_one agentResult iter1 req st).2.1).2.2 = false ∧
    (spawn_resolve_one agentResult iter2 req
      (spawn_resolve_one agentResult iter1 req st).2.1).1 =
      (spawn_resolve_one agentResult iter1 req st).1 := by
  obtain ⟨mc, rd⟩ := st
  cases mc with
  | none =>
      cases rd with
      | none => simp at htier
      | some rmap =>
          cases hr : alGet rmap (contextCacheKey req) with
          | some rec => simp [spawn_resolve_one, hr]
          | none => simp [spawn_resolve_one, hr, hok, alGet_alSet_self]
  | some m =>
      by_cases he : m.isEmpty
      · cases rd with
        | none =>
            simp [spawn_resolve_one, he, hok, alGet_alSet_self, alSet_isEmpty]
        | some rmap =>
            cases hr : alGet rmap (contextCacheKey req) with
            | some rec => simp [spawn_resolve_one, he, hr]
            | none =>
                simp [spawn_resolve_one, he, hr, hok, alGet_alSet_self, alSet_isEmpty]
      · cases hm : alGet m (contextCacheKey req) with
        | some rec => simp [spawn_resolve_one, he, hm]
        | none =>
            cases rd with
            | none =>
                simp [spawn_resolve_one, he, hm, hok, alGet_alSet_self, alSet_isEmpty]
            | some rmap =>
                cases hr : alGet rmap (contextCacheKey req) with
                | some rec => simp [spawn_resolve_one, he, hm, hr]
                | none =>
                    simp [spawn_resolve_one, he, hm, hr, hok, alGet_alSet_self, alSet_isEmpty]

/-- C8 witness: empty in-memory tier, no Redis; the first resolution
invokes the agent, the second is a pure cache hit returning the same
record. -/
theorem context_cache_idempotent_witness :
    (spawn_resolve_one (fun _ => Except.ok { raw := "r", summary := "s", cost := 0, tokens := 3 })
      2 { type := "zoekt_search", query := "q", files := ["a.py"] }
      (spawn_resolve_one (fun _ => Except.ok { raw := "r", summary := "s", cost := 0, tokens := 3 })
        1 { type := "zoekt_search", query := "q", files := ["a.py"] }
        { context_cache := some [], redis := none }).2.1).2.2 = false ∧
    (spawn_resolve_one (fun _ => Except.ok { raw := "r", summary := "s", cost := 0, tokens := 3 })
      2 { type := "zoekt_search", query := "q", files := ["a.py"] }
      (spawn_resolve_one (fun _ => Except.ok { raw := "r", summary := "s", cost := 0, tokens := 3 })
        1 { type := "zoekt_search", query := "q", files := ["a.py"] }
        { context_cache := some [], redis := none }).2.1).1 =
      (spawn_resolve_one (fun _ => Except.ok { raw := "r", summary := "s", cost := 0, tokens := 3 })
        1 { type := "zoekt_search", query := "q", files := ["a.py"] }
        { context_cache := some [], redis := none }).1 :=
  context_cache_idempotent
    (fun _ => Except.ok { raw := "r", summary := "s", cost := 0, tokens := 3 })
    1 2 { type := "zoekt_search", query := "q", files := ["a.py"] }
    { context_cache := some [], redis := none }
    (Or.inl (by simp))
    { raw := "r", summary := "s", cost := 0, tokens := 3 } rfl
